import Mathlib

/-
  Verification of the RAW_VIEWER repository (Rust).

  The repository contains two implementations of an ARW decode routine:
  one in src/decoder.rs (function decode_arw_file, with a thumbnail-first
  fallback and an explicit 8-bit output configuration) and one inlined in
  src/main.rs (function decode_arw_file, full-image extraction only),
  which is the one the GUI shell (LibRawViewerApp) actually calls, since
  main.rs declares no `mod decoder`.

  The external LibRaw engine is reached only through FFI.  We embed it as
  an environment record `Engine` fixing the outcome of each engine call
  during one decode invocation, and embed each decode routine as a pure
  function from that environment (plus the input path, as a byte list) to
  its Result value together with a trace of the engine calls it performs.
  Machine integers: c_int is embedded as Int with explicit two's-complement
  casts, usize as Nat below 2^64 with checked multiplication.
-/

namespace RawViewer

/-- Two's-complement cast of a C `int` value to Rust `u32` (`as u32`). -/
def u32cast (i : Int) : Nat := (i % (2 : Int) ^ 32).toNat

/-- Cast of a C `int` value to Rust `usize` (`as usize`, 64-bit, sign-extending). -/
def usizeOfCInt (i : Int) : Nat := (i % (2 : Int) ^ 64).toNat

/-- Rust `usize::checked_mul` on a 64-bit target: `none` exactly on overflow. -/
def checked_mul (a b : Nat) : Option Nat :=
  if a * b < 2 ^ 64 then some (a * b) else none

/-- Embeds the C struct `libraw_processed_image_t` as read through the
`LibRawProcessedImage` repr(C) binding: the fields the code reads, with the
`data` pointer split into a null flag and the byte contents of the pointed-to
engine buffer (`dataByte i` is the byte at offset `i`). -/
structure LibRawProcessedImage where
  type_ : Int
  colors : Int
  height : Int
  width : Int
  bits : Int
  dataNull : Bool
  dataByte : Nat → Nat
  data_size : Int

/-- Environment of one decode call: the responses the external LibRaw engine
gives to each FFI call the routine can make.  `thumbErr` / `fullErr` are the
values left in the out-parameter `err` by `libraw_dcraw_make_mem_thumb` /
`libraw_dcraw_make_mem_image`; a `none` image is a null pointer return. -/
structure Engine where
  initNull : Bool
  openRet : Int
  unpackRet : Int
  processRet : Int
  thumbImage : Option LibRawProcessedImage
  thumbErr : Int
  fullImage : Option LibRawProcessedImage
  fullErr : Int

/-- One engine FFI call, recorded in the trace of a decode run. -/
inductive Ev where
  | init
  | openFile
  | unpack
  | setBps (bps : Int)
  | process
  | makeThumb
  | makeImage
  | clearMem
  | close
  deriving DecidableEq

/-- Index of the first NUL byte in a byte string, if any (what
`CString::new` rejects). -/
def firstNul : List Nat → Nat → Option Nat
  | [], _ => none
  | b :: rest, i => if b = 0 then some i else firstNul rest (i + 1)

/-- Embeds `CString::new(path).map_err(|e| e.to_string())`: fails exactly when
the path contains an interior NUL byte, with the std `NulError` display text. -/
def cstring_new (path : List Nat) : Except String Unit :=
  match firstNul path 0 with
  | none => Except.ok ()
  | some i =>
      Except.error ("nul byte found in provided data at position: " ++ toString i)

namespace Decoder

/-- Embeds `extract_image_data` (src/decoder.rs lines 39-59): validates the
processed image (non-null data, `data_size == width * height * 3` computed by
checked multiplication) and copies `data_size` bytes out of the engine buffer. -/
def extract_image_data (image : LibRawProcessedImage) :
    Except String (List Nat × Nat × Nat) :=
  if image.dataNull then
    Except.error "Processed image data pointer is null"
  else
    match (checked_mul (u32cast image.width) (u32cast image.height)).bind
        (fun v => checked_mul v 3) with
    | none => Except.error "Image dimensions too large"
    | some expected_size =>
        if usizeOfCInt image.data_size ≠ expected_size then
          Except.error ("Processed image data size (" ++
            toString (usizeOfCInt image.data_size) ++
            ") does not match expected size (" ++ toString expected_size ++ ")")
        else
          Except.ok ((List.range (usizeOfCInt image.data_size)).map image.dataByte,
            u32cast image.width, u32cast image.height)

/-- Embeds `decode_arw_file` (src/decoder.rs lines 64-116), returning the
Result value together with the ordered trace of engine calls performed.
Branch structure follows the source exactly; in particular the `CString::new`
failure returns before any `libraw_close`, and in the full-image fallback the
`libraw_dcraw_clear_mem` call sits inside the `and_then` success continuation
so it is skipped when `extract_image_data` fails. -/
def decode_arw_file (e : Engine) (path : List Nat) :
    Except String (List Nat × Nat × Nat) × List Ev :=
  if e.initNull then
    (Except.error "Failed to initialize LibRaw", [Ev.init])
  else
    match cstring_new path with
    | Except.error m => (Except.error m, [Ev.init])
    | Except.ok _ =>
      if e.openRet ≠ 0 then
        (Except.error ("libraw_open_file failed with error code " ++ toString e.openRet),
          [Ev.init, Ev.openFile, Ev.close])
      else if e.unpackRet ≠ 0 then
        (Except.error ("libraw_unpack failed with error code " ++ toString e.unpackRet),
          [Ev.init, Ev.openFile, Ev.unpack, Ev.close])
      else if e.processRet ≠ 0 then
        (Except.error ("libraw_dcraw_process failed with error code " ++ toString e.processRet),
          [Ev.init, Ev.openFile, Ev.unpack, Ev.setBps 8, Ev.process, Ev.close])
      else
        match e.thumbImage with
        | none =>
          if e.thumbErr = -4 then
            match e.fullImage with
            | none =>
              (Except.error ("Full image extraction failed with error code " ++
                  toString e.fullErr),
                [Ev.init, Ev.openFile, Ev.unpack, Ev.setBps 8, Ev.process,
                  Ev.makeThumb, Ev.makeImage, Ev.close])
            | some img =>
              if e.fullErr ≠ 0 then
                (Except.error ("Full image extraction failed with error code " ++
                    toString e.fullErr),
                  [Ev.init, Ev.openFile, Ev.unpack, Ev.setBps 8, Ev.process,
                    Ev.makeThumb, Ev.makeImage, Ev.close])
              else
                match extract_image_data img with
                | Except.ok v =>
                  (Except.ok v,
                    [Ev.init, Ev.openFile, Ev.unpack, Ev.setBps 8, Ev.process,
                      Ev.makeThumb, Ev.makeImage, Ev.clearMem, Ev.close])
                | Except.error m =>
                  (Except.error m,
                    [Ev.init, Ev.openFile, Ev.unpack, Ev.setBps 8, Ev.process,
                      Ev.makeThumb, Ev.makeImage, Ev.close])
          else
            (Except.error ("Thumbnail extraction failed with error code " ++
                toString e.thumbErr),
              [Ev.init, Ev.openFile, Ev.unpack, Ev.setBps 8, Ev.process,
                Ev.makeThumb, Ev.close])
        | some timg =>
          (extract_image_data timg,
            [Ev.init, Ev.openFile, Ev.unpack, Ev.setBps 8, Ev.process,
              Ev.makeThumb, Ev.clearMem, Ev.close])

end Decoder

namespace App

/-- Embeds `decode_arw_file` (src/main.rs lines 42-99), the routine the GUI
shell actually calls.  It performs no `libraw_set_output_bps` call and no
thumbnail extraction: after process it goes straight to
`libraw_dcraw_make_mem_image`.  The `?` on `checked_mul ... .ok_or(...)`
(line 84) returns before the `libraw_dcraw_clear_mem` / `libraw_close` calls,
as does the `CString::new` failure (line 48) before any `libraw_close`. -/
def decode_arw_file (e : Engine) (path : List Nat) :
    Except String (List Nat × Nat × Nat) × List Ev :=
  if e.initNull then
    (Except.error "Failed to initialize LibRaw", [Ev.init])
  else
    match cstring_new path with
    | Except.error m => (Except.error m, [Ev.init])
    | Except.ok _ =>
      if e.openRet ≠ 0 then
        (Except.error ("libraw_open_file failed with error code " ++ toString e.openRet),
          [Ev.init, Ev.openFile, Ev.close])
      else if e.unpackRet ≠ 0 then
        (Except.error ("libraw_unpack failed with error code " ++ toString e.unpackRet),
          [Ev.init, Ev.openFile, Ev.unpack, Ev.close])
      else if e.processRet ≠ 0 then
        (Except.error ("libraw_dcraw_process failed with error code " ++ toString e.processRet),
          [Ev.init, Ev.openFile, Ev.unpack, Ev.process, Ev.close])
      else
        match e.fullImage with
        | none =>
          (Except.error ("libraw_dcraw_make_mem_image failed with error code " ++
              toString e.fullErr),
            [Ev.init, Ev.openFile, Ev.unpack, Ev.process, Ev.makeImage, Ev.close])
        | some img =>
          if e.fullErr ≠ 0 then
            (Except.error ("libraw_dcraw_make_mem_image failed with error code " ++
                toString e.fullErr),
              [Ev.init, Ev.openFile, Ev.unpack, Ev.process, Ev.makeImage, Ev.close])
          else if img.dataNull then
            (Except.error "Processed image data pointer is null",
              [Ev.init, Ev.openFile, Ev.unpack, Ev.process, Ev.makeImage,
                Ev.clearMem, Ev.close])
          else
            match (checked_mul (u32cast img.width) (u32cast img.height)).bind
                (fun v => checked_mul v 3) with
            | none =>
              (Except.error "Image dimensions too large",
                [Ev.init, Ev.openFile, Ev.unpack, Ev.process, Ev.makeImage])
            | some expected_size =>
              if usizeOfCInt img.data_size ≠ expected_size then
                (Except.error ("Processed image data size (" ++
                    toString (usizeOfCInt img.data_size) ++
                    ") does not match expected size (" ++ toString expected_size ++ ")"),
                  [Ev.init, Ev.openFile, Ev.unpack, Ev.process, Ev.makeImage,
                    Ev.clearMem, Ev.close])
              else
                (Except.ok ((List.range (usizeOfCInt img.data_size)).map img.dataByte,
                    u32cast img.width, u32cast img.height),
                  [Ev.init, Ev.openFile, Ev.unpack, Ev.process, Ev.makeImage,
                    Ev.clearMem, Ev.close])

/-- Embeds `egui::ColorImage` as built in `load_arw`: the pixel grid the
texture is loaded from. -/
structure ColorImage where
  size : List Nat
  pixels : List (Nat × Nat × Nat)
  deriving DecidableEq

/-- Embeds `data.chunks(3).map(|c| Color32::from_rgb(c[0], c[1], c[2]))`.
At the only call site the data length is `width * height * 3`, a multiple
of 3, so no chunk is short. -/
def rgbPixels : List Nat → List (Nat × Nat × Nat)
  | a :: b :: c :: rest => (a, b, c) :: rgbPixels rest
  | _ => []

/-- Embeds the retained state of `LibRawViewerApp`: the displayed texture
(identified with the `ColorImage` it was loaded from) and the retained
image buffer with its dimensions. -/
structure LibRawViewerApp where
  texture : Option ColorImage
  image_data : Option (List Nat × Nat × Nat)
  deriving DecidableEq

/-- Embeds `LibRawViewerApp::load_arw` (src/main.rs lines 118-140): on a
successful decode it replaces both retained fields; on a failed decode it
only logs the error and leaves the state as it was. -/
def load_arw (e : Engine) (path : List Nat) (s : LibRawViewerApp) : LibRawViewerApp :=
  match (decode_arw_file e path).1 with
  | Except.ok (data, width, height) =>
      { image_data := some (data, width, height),
        texture := some { size := [width, height], pixels := rgbPixels data } }
  | Except.error _ => s

end App

theorem checked_mul_eq {a b c : Nat} (h : checked_mul a b = some c) : c = a * b := by
  unfold checked_mul at h
  split at h
  · exact (Option.some.inj h).symm
  · exact absurd h (by simp)

theorem checked_mul3_eq {a b c : Nat}
    (h : (checked_mul a b).bind (fun v => checked_mul v 3) = some c) :
    c = a * b * 3 := by
  rcases Option.bind_eq_some.mp h with ⟨v, hv, hc⟩
  rw [checked_mul_eq hc, checked_mul_eq hv]

theorem extract_ok_shape {img : RawViewer.LibRawProcessedImage} {d : List Nat} {w h : Nat}
    (heq : Decoder.extract_image_data img = Except.ok (d, w, h)) :
    d.length = w * h * 3 ∧ w = u32cast img.width ∧ h = u32cast img.height ∧
      usizeOfCInt img.data_size = w * h * 3 := by
  unfold Decoder.extract_image_data at heq
  split at heq
  · simp at heq
  · split at heq
    · simp at heq
    · rename_i expected hmatch
      split at heq
      · simp at heq
      · rename_i hsz
        simp only [not_ne_iff] at hsz
        simp only [Except.ok.injEq, Prod.mk.injEq] at heq
        obtain ⟨hd, hw, hh⟩ := heq
        have hexp : expected = u32cast img.width * u32cast img.height * 3 :=
          checked_mul3_eq hmatch
        refine ⟨?_, hw.symm, hh.symm, ?_⟩
        · rw [← hd, List.length_map, List.length_range, hsz, hexp, hw, hh]
        · rw [hsz, hexp, hw, hh]

theorem decoder_decode_ok_extract {e : Engine} {p : List Nat}
    {v : List Nat × Nat × Nat}
    (heq : (Decoder.decode_arw_file e p).1 = Except.ok v) :
    ∃ img, Decoder.extract_image_data img = Except.ok v := by
  unfold Decoder.decode_arw_file at heq
  split at heq
  · simp at heq
  · split at heq
    · simp at heq
    · split at heq
      · simp at heq
      · split at heq
        · simp at heq
        · split at heq
          · simp at heq
          · split at heq
            · split at heq
              · split at heq
                · simp at heq
                · split at heq
                  · simp at heq
                  · split at heq
                    · rename_i vv hx
                      exact ⟨_, hx.trans heq⟩
                    · simp at heq
              · simp at heq
            · exact ⟨_, heq⟩

theorem app_decode_ok_shape {e : Engine} {p : List Nat} {d : List Nat} {w h : Nat}
    (heq : (App.decode_arw_file e p).1 = Except.ok (d, w, h)) :
    d.length = w * h * 3 := by
  unfold App.decode_arw_file at heq
  split at heq
  · simp at heq
  · split at heq
    · simp at heq
    · split at heq
      · simp at heq
      · split at heq
        · simp at heq
        · split at heq
          · simp at heq
          · split at heq
            · simp at heq
            · split at heq
              · simp at heq
              · split at heq
                · simp at heq
                · split at heq
                  · simp at heq
                  · split at heq
                    · simp at heq
                    · rename_i expected hmatch hsz
                      simp only [not_ne_iff] at hsz
                      simp only [Except.ok.injEq, Prod.mk.injEq] at heq
                      obtain ⟨hd, hw, hh⟩ := heq
                      have hexp := checked_mul3_eq hmatch
                      rw [← hd, List.length_map, List.length_range, hsz, hexp, hw, hh]

theorem u32cast_lt (i : Int) : u32cast i < 4294967296 := by
  unfold u32cast
  have h : (2 : Int) ^ 32 = 4294967296 := by norm_num
  rw [h]
  omega

/-- A well-formed 2 by 1 8-bit RGB processed image used in concrete runs. -/
def I6 : LibRawProcessedImage :=
  { type_ := 0, colors := 3, height := 1, width := 2, bits := 8,
    dataNull := false, dataByte := fun _ => 7, data_size := 6 }

/-- A processed image whose reported size (5) does not match its 1 by 1
dimensions (expected 3). -/
def I5 : LibRawProcessedImage :=
  { type_ := 0, colors := 3, height := 1, width := 1, bits := 8,
    dataNull := false, dataByte := fun _ => 7, data_size := 5 }

/-- A processed image with garbage dimensions (c_int -1, cast to u32 as
4294967295) whose expected byte size overflows a 64-bit usize. -/
def Iovf : LibRawProcessedImage :=
  { type_ := 0, colors := 3, height := -1, width := -1, bits := 8,
    dataNull := false, dataByte := fun _ => 7, data_size := 6 }

/-- Engine responses for a fully successful run: every stage returns 0 and
both extraction calls return the valid image I6. -/
def Eok : Engine :=
  { initNull := false, openRet := 0, unpackRet := 0, processRet := 0,
    thumbImage := some I6, thumbErr := 0, fullImage := some I6, fullErr := 0 }

/-- Engine responses where the thumbnail is absent (null, err -4) and the
full-image extraction returns the size-mismatched image I5 with err 0. -/
def E3 : Engine :=
  { initNull := false, openRet := 0, unpackRet := 0, processRet := 0,
    thumbImage := none, thumbErr := -4, fullImage := some I5, fullErr := 0 }

/-- Engine responses where the thumbnail is absent (null, err -4) and the
full-image extraction succeeds with the valid image I6. -/
def E4 : Engine :=
  { initNull := false, openRet := 0, unpackRet := 0, processRet := 0,
    thumbImage := none, thumbErr := -4, fullImage := some I6, fullErr := 0 }

/-- Engine responses where thumbnail extraction fails with a non-sentinel
code (-1). -/
def E5 : Engine :=
  { initNull := false, openRet := 0, unpackRet := 0, processRet := 0,
    thumbImage := none, thumbErr := -1, fullImage := some I6, fullErr := 0 }

/-- Engine responses where `libraw_open_file` fails with code -2. -/
def Eopen : Engine :=
  { initNull := false, openRet := -2, unpackRet := 0, processRet := 0,
    thumbImage := some I6, thumbErr := 0, fullImage := some I6, fullErr := 0 }

/-- The path "a": no interior NUL byte. -/
def Path0 : List Nat := [97]

/-- A path with an interior NUL byte at position 1 (bytes of "a\x00b"). -/
def PathNul : List Nat := [97, 0, 98]

/-- C1: for every call to either decode routine that returns success, the
returned buffer's byte length equals width * height * 3 exactly; and whenever
the engine-returned processed buffer's reported size differs from
width * height * 3, decode returns a validation failure (an error, never the
data). -/
theorem C1_decode_buffer_length :
    (∀ (e : Engine) (p d : List Nat) (w h : Nat),
        (Decoder.decode_arw_file e p).1 = Except.ok (d, w, h) →
        d.length = w * h * 3) ∧
    (∀ (e : Engine) (p d : List Nat) (w h : Nat),
        (App.decode_arw_file e p).1 = Except.ok (d, w, h) →
        d.length = w * h * 3) ∧
    (∀ img : LibRawProcessedImage, img.dataNull = false →
        usizeOfCInt img.data_size ≠ u32cast img.width * u32cast img.height * 3 →
        ∃ m, Decoder.extract_image_data img = Except.error m) ∧
    (∀ (e : Engine) (p : List Nat) (img : LibRawProcessedImage),
        e.initNull = false → cstring_new p = Except.ok () →
        e.openRet = 0 → e.unpackRet = 0 → e.processRet = 0 →
        e.fullImage = some img → e.fullErr = 0 → img.dataNull = false →
        usizeOfCInt img.data_size ≠ u32cast img.width * u32cast img.height * 3 →
        ∃ m, (App.decode_arw_file e p).1 = Except.error m) := by
  refine ⟨?_, ?_, ?_, ?_⟩
  · intro e p d w h heq
    obtain ⟨img, hx⟩ := decoder_decode_ok_extract heq
    exact (extract_ok_shape hx).1
  · intro e p d w h heq
    exact app_decode_ok_shape heq
  · intro img hnull hne
    unfold Decoder.extract_image_data
    simp only [hnull, Bool.false_eq_true, if_false]
    split
    · exact ⟨_, rfl⟩
    · rename_i expected hmatch
      rw [if_pos (by rw [checked_mul3_eq hmatch]; exact hne)]
      exact ⟨_, rfl⟩
  · intro e p img hinit hc ho hu hpr hf hfe hnull hne
    unfold App.decode_arw_file
    simp only [hinit, hc, ho, hu, hpr, hf, hfe, hnull, Bool.false_eq_true, if_false,
      ne_eq, not_true_eq_false, not_false_eq_true, ite_false, ite_true]
    split
    · exact ⟨_, rfl⟩
    · rename_i expected hmatch
      rw [if_pos (by rw [checked_mul3_eq hmatch]; exact hne)]
      exact ⟨_, rfl⟩

/-- C1 witness: on the concrete successful run Eok/Path0 the decoder returns
a 6-byte buffer for a 2 by 1 image, and on the mismatched image I5 the
validator rejects. -/
theorem C1_decode_buffer_length_witness :
    ([7, 7, 7, 7, 7, 7] : List Nat).length = 2 * 1 * 3 ∧
    (∃ m, Decoder.extract_image_data I5 = Except.error m) :=
  ⟨C1_decode_buffer_length.1 Eok Path0 [7, 7, 7, 7, 7, 7] 2 1 (by rfl),
   C1_decode_buffer_length.2.2.1 I5 (by decide) (by decide)⟩

/-- C2: refuted as stated.  With a successfully initialized engine and a path
containing an interior NUL byte, the `CString::new` early return in both
decode routines happens before any `libraw_close`: the run performs the
session open (Ev.init with initNull = false) but its trace [Ev.init] contains
no Ev.close, so a session is opened and never closed. -/
theorem C2_cstring_failure_leaks_session :
    Eok.initNull = false ∧
    (Decoder.decode_arw_file Eok PathNul).2 = [Ev.init] ∧
    (App.decode_arw_file Eok PathNul).2 = [Ev.init] ∧
    (Decoder.decode_arw_file Eok PathNul).1 =
      Except.error "nul byte found in provided data at position: 1" ∧
    (App.decode_arw_file Eok PathNul).1 =
      Except.error "nul byte found in provided data at position: 1" ∧
    Ev.close ∉ (Decoder.decode_arw_file Eok PathNul).2 ∧
    Ev.close ∉ (App.decode_arw_file Eok PathNul).2 :=
  ⟨rfl, rfl, rfl, rfl, rfl, by decide, by decide⟩

/-- C3: refuted as stated.  In the decoder's full-image fallback the
`libraw_dcraw_clear_mem` call sits inside the `and_then` success continuation,
so when `extract_image_data` fails (here: size 5 versus expected 3) the
engine-allocated full-image buffer is acquired (Ev.makeImage in the trace)
but never released (no Ev.clearMem in the trace). -/
theorem C3_fallback_validation_leaks_buffer :
    (Decoder.decode_arw_file E3 Path0).1 =
      Except.error "Processed image data size (5) does not match expected size (3)" ∧
    Ev.makeImage ∈ (Decoder.decode_arw_file E3 Path0).2 ∧
    Ev.clearMem ∉ (Decoder.decode_arw_file E3 Path0).2 :=
  ⟨rfl, by decide, by decide⟩

/-- C4: when thumbnail extraction reports the no-thumbnail sentinel (null
return with err = -4), the decoder falls back to full-image extraction
(Ev.makeImage occurs) and returns that extraction's result: the value of
`extract_image_data` on the full image when it was produced with err 0, or
the full-extraction failure message otherwise — never a thumbnail error. -/
theorem C4_thumbnail_sentinel_falls_back (e : Engine) (p : List Nat)
    (hinit : e.initNull = false) (hc : cstring_new p = Except.ok ())
    (ho : e.openRet = 0) (hu : e.unpackRet = 0) (hpr : e.processRet = 0)
    (ht : e.thumbImage = none) (he : e.thumbErr = -4) :
    Ev.makeImage ∈ (Decoder.decode_arw_file e p).2 ∧
    (∀ img, e.fullImage = some img → e.fullErr = 0 →
        (Decoder.decode_arw_file e p).1 = Decoder.extract_image_data img) ∧
    (e.fullImage = none ∨ e.fullErr ≠ 0 →
        (Decoder.decode_arw_file e p).1 =
          Except.error ("Full image extraction failed with error code " ++
            toString e.fullErr)) := by
  unfold Decoder.decode_arw_file
  simp only [hinit, hc, ho, hu, hpr, ht, he, Bool.false_eq_true, if_false,
    ne_eq, not_true_eq_false, not_false_eq_true, ite_false, ite_true, if_pos rfl]
  rcases hf : e.fullImage with _ | img
  · refine ⟨by simp, ?_, ?_⟩
    · intro img h
      exact absurd h (by simp)
    · intro _
      simp
  · by_cases hfe : e.fullErr = 0
    · simp only [hfe, ne_eq, not_true_eq_false, if_false, ite_false]
      refine ⟨?_, ?_, ?_⟩
      · rcases hx : Decoder.extract_image_data img with v | m <;> simp [hx]
      · intro img2 h2 _
        obtain rfl := Option.some.inj h2
        rcases hx : Decoder.extract_image_data img with v | m <;> simp [hx]
      · rintro (h | h)
        · exact absurd h (by simp)
        · exact h.elim
    · simp only [ne_eq, hfe, not_false_eq_true, if_true, ite_true]
      refine ⟨by simp, ?_, ?_⟩
      · intro img2 h2 hfe2
        exact hfe2.elim
      · intro _
        simp

/-- C4 witness: on the concrete run E4/Path0 (thumbnail absent with err -4,
full image I6 produced with err 0) the fallback extraction is performed and
decode returns the full-image extraction's result. -/
theorem C4_thumbnail_sentinel_falls_back_witness :
    Ev.makeImage ∈ (Decoder.decode_arw_file E4 Path0).2 ∧
    (Decoder.decode_arw_file E4 Path0).1 = Decoder.extract_image_data I6 :=
  ⟨(C4_thumbnail_sentinel_falls_back E4 Path0 rfl rfl rfl rfl rfl rfl rfl).1,
   (C4_thumbnail_sentinel_falls_back E4 Path0 rfl rfl rfl rfl rfl rfl rfl).2.1 I6 rfl rfl⟩

/-- C5: when thumbnail extraction fails (null return) with any err other than
the -4 sentinel, the decoder returns the thumbnail-extraction failure
immediately and never calls full-image extraction (no Ev.makeImage). -/
theorem C5_thumbnail_hard_failure (e : Engine) (p : List Nat)
    (hinit : e.initNull = false) (hc : cstring_new p = Except.ok ())
    (ho : e.openRet = 0) (hu : e.unpackRet = 0) (hpr : e.processRet = 0)
    (ht : e.thumbImage = none) (he : e.thumbErr ≠ -4) :
    (Decoder.decode_arw_file e p).1 =
      Except.error ("Thumbnail extraction failed with error code " ++
        toString e.thumbErr) ∧
    Ev.makeImage ∉ (Decoder.decode_arw_file e p).2 := by
  unfold Decoder.decode_arw_file
  simp only [hinit, hc, ho, hu, hpr, ht, Bool.false_eq_true, if_false,
    ne_eq, not_true_eq_false, not_false_eq_true, ite_false, ite_true, if_neg he]
  exact ⟨by simp, by decide⟩

/-- C5 witness: on the concrete run E5/Path0 (thumbnail null with err -1) the
decoder fails with the thumbnail message and performs no full extraction. -/
theorem C5_thumbnail_hard_failure_witness :
    (Decoder.decode_arw_file E5 Path0).1 =
      Except.error "Thumbnail extraction failed with error code -1" ∧
    Ev.makeImage ∉ (Decoder.decode_arw_file E5 Path0).2 :=
  C5_thumbnail_hard_failure E5 Path0 rfl rfl rfl rfl rfl rfl (by decide)

/-- C6: refuted as stated.  The decode routine the Application Shell actually
invokes is the inline `decode_arw_file` of src/main.rs (main.rs declares no
`mod decoder`), and on a run that reaches the extraction stage its trace shows
full-image extraction (Ev.makeImage) with no thumbnail attempt (no
Ev.makeThumb): full-image extraction is not guarded by a thumbnail sentinel. -/
theorem C6_shell_routine_skips_thumbnail :
    (App.decode_arw_file Eok Path0).2 =
      [Ev.init, Ev.openFile, Ev.unpack, Ev.process, Ev.makeImage,
        Ev.clearMem, Ev.close] ∧
    Ev.makeImage ∈ (App.decode_arw_file Eok Path0).2 ∧
    Ev.makeThumb ∉ (App.decode_arw_file Eok Path0).2 ∧
    (App.decode_arw_file Eok Path0).1 = Except.ok ([7, 7, 7, 7, 7, 7], 2, 1) :=
  ⟨rfl, by decide, by decide, rfl⟩

/-- C7: whenever the engine first reports a nonzero status at the open,
unpack, or process stage, both decode routines fail with the message naming
that stage and carrying the engine's code verbatim (via toString), and never
return success. -/
theorem C7_stage_errors_verbatim (e : Engine) (p : List Nat)
    (hinit : e.initNull = false) (hc : cstring_new p = Except.ok ()) :
    (e.openRet ≠ 0 →
      (Decoder.decode_arw_file e p).1 =
        Except.error ("libraw_open_file failed with error code " ++ toString e.openRet) ∧
      (App.decode_arw_file e p).1 =
        Except.error ("libraw_open_file failed with error code " ++ toString e.openRet)) ∧
    (e.openRet = 0 → e.unpackRet ≠ 0 →
      (Decoder.decode_arw_file e p).1 =
        Except.error ("libraw_unpack failed with error code " ++ toString e.unpackRet) ∧
      (App.decode_arw_file e p).1 =
        Except.error ("libraw_unpack failed with error code " ++ toString e.unpackRet)) ∧
    (e.openRet = 0 → e.unpackRet = 0 → e.processRet ≠ 0 →
      (Decoder.decode_arw_file e p).1 =
        Except.error ("libraw_dcraw_process failed with error code " ++ toString e.processRet) ∧
      (App.decode_arw_file e p).1 =
        Except.error ("libraw_dcraw_process failed with error code " ++ toString e.processRet)) := by
  refine ⟨?_, ?_, ?_⟩
  · intro ho
    unfold Decoder.decode_arw_file App.decode_arw_file
    constructor <;> simp [hinit, hc, ho]
  · intro ho hu
    unfold Decoder.decode_arw_file App.decode_arw_file
    constructor <;> simp [hinit, hc, ho, hu]
  · intro ho hu hpr
    unfold Decoder.decode_arw_file App.decode_arw_file
    constructor <;> simp [hinit, hc, ho, hu, hpr]

/-- C7 witness: on the concrete run Eopen/Path0 (open fails with code -2)
both routines report the open stage with code -2. -/
theorem C7_stage_errors_verbatim_witness :
    (Decoder.decode_arw_file Eopen Path0).1 =
      Except.error "libraw_open_file failed with error code -2" ∧
    (App.decode_arw_file Eopen Path0).1 =
      Except.error "libraw_open_file failed with error code -2" :=
  (C7_stage_errors_verbatim Eopen Path0 rfl rfl).1 (by decide)

/-- C8: refuted as stated.  The decoder-module routine does configure 8-bit
output before process (Ev.setBps 8 precedes Ev.process in its trace), but the
decode routine the Application Shell actually invokes (src/main.rs) performs
no `libraw_set_output_bps` call at all on a run that proceeds past unpack to
process: Ev.setBps 8 is absent from its trace while Ev.process occurs. -/
theorem C8_shell_routine_no_bps_config :
    Ev.setBps 8 ∈ (Decoder.decode_arw_file Eok Path0).2 ∧
    Ev.process ∈ (App.decode_arw_file Eok Path0).2 ∧
    Ev.setBps 8 ∉ (App.decode_arw_file Eok Path0).2 ∧
    (App.decode_arw_file Eok Path0).2 =
      [Ev.init, Ev.openFile, Ev.unpack, Ev.process, Ev.makeImage,
        Ev.clearMem, Ev.close] :=
  ⟨by decide, by decide, by decide, rfl⟩

/-- C9: whenever the decode routine the shell invokes fails, `load_arw`
leaves the retained application state (texture and image buffer with its
dimensions) exactly as it was: a failed decode never discards or replaces a
previously loaded image. -/
theorem C9_failed_decode_preserves_state (e : Engine) (p : List Nat)
    (s : App.LibRawViewerApp) (m : String)
    (hfail : (App.decode_arw_file e p).1 = Except.error m) :
    App.load_arw e p s = s := by
  unfold App.load_arw
  rw [hfail]

/-- C9 witness: on the failing run Eopen/Path0 a state holding a previously
loaded 1 by 1 image is returned unchanged. -/
theorem C9_failed_decode_preserves_state_witness :
    App.load_arw Eopen Path0
        { texture := some { size := [1, 1], pixels := [(9, 9, 9)] },
          image_data := some ([9, 9, 9], 1, 1) } =
      { texture := some { size := [1, 1], pixels := [(9, 9, 9)] },
        image_data := some ([9, 9, 9], 1, 1) } :=
  C9_failed_decode_preserves_state Eopen Path0
    { texture := some { size := [1, 1], pixels := [(9, 9, 9)] },
      image_data := some ([9, 9, 9], 1, 1) }
    "libraw_open_file failed with error code -2" rfl

/-- C10: when the engine-reported dimensions are such that
width * height * 3 overflows the 64-bit usize, the expected-size computation
(checked multiplication on every path) yields the error "Image dimensions too
large" instead of a wrapped size: in `extract_image_data` (used by both
decoder paths) and in the shell-invoked routine alike. -/
theorem C10_overflow_checked :
    (∀ img : LibRawProcessedImage, img.dataNull = false →
        2 ^ 64 ≤ u32cast img.width * u32cast img.height * 3 →
        Decoder.extract_image_data img = Except.error "Image dimensions too large") ∧
    (∀ (e : Engine) (p : List Nat) (img : LibRawProcessedImage),
        e.initNull = false → cstring_new p = Except.ok () →
        e.openRet = 0 → e.unpackRet = 0 → e.processRet = 0 →
        e.fullImage = some img → e.fullErr = 0 → img.dataNull = false →
        2 ^ 64 ≤ u32cast img.width * u32cast img.height * 3 →
        (App.decode_arw_file e p).1 = Except.error "Image dimensions too large") := by
  have hbind : ∀ img : LibRawProcessedImage,
      2 ^ 64 ≤ u32cast img.width * u32cast img.height * 3 →
      (checked_mul (u32cast img.width) (u32cast img.height)).bind
        (fun v => checked_mul v 3) = none := by
    intro img hov
    have hw := u32cast_lt img.width
    have hh := u32cast_lt img.height
    have hwh : u32cast img.width * u32cast img.height < 2 ^ 64 := by
      calc u32cast img.width * u32cast img.height
          < 4294967296 * 4294967296 := Nat.mul_lt_mul'' hw hh
        _ = 2 ^ 64 := by norm_num
    have h1 : checked_mul (u32cast img.width) (u32cast img.height) =
        some (u32cast img.width * u32cast img.height) := by
      unfold checked_mul
      rw [if_pos hwh]
    have h2 : checked_mul (u32cast img.width * u32cast img.height) 3 = none := by
      unfold checked_mul
      rw [if_neg (not_lt.mpr hov)]
    rw [h1, Option.some_bind, h2]
  refine ⟨?_, ?_⟩
  · intro img hnull hov
    unfold Decoder.extract_image_data
    simp only [hnull, Bool.false_eq_true, if_false, hbind img hov]
  · intro e p img hinit hc ho hu hpr hf hfe hnull hov
    unfold App.decode_arw_file
    simp only [hinit, hc, ho, hu, hpr, hf, hfe, hnull, Bool.false_eq_true, if_false,
      ne_eq, not_true_eq_false, not_false_eq_true, ite_false, ite_true,
      hbind img hov]

/-- C10 witness: the garbage-dimension image Iovf (width and height c_int -1,
so 4294967295 each after the u32 cast) makes the expected size overflow and
extraction reports "Image dimensions too large". -/
theorem C10_overflow_checked_witness :
    Decoder.extract_image_data Iovf = Except.error "Image dimensions too large" :=
  C10_overflow_checked.1 Iovf rfl (by decide)

end RawViewer
